import Mathlib

/-!
Shallow embedding of `telegram_core_components.py` (XpressAI/xai-telegram).

The file models the six Xircuits components of the repository:
`TelegramInitApp`, `TelegramAddEchoHandler`, `TelegramRunApp`,
`TelegramAddCommandEvent`, `TelegramParsePayload`,
`TelegramReplyToMessageEvent`.

Python objects of the wrapped library (`telegram.Update`, users, chats,
messages) become Lean structures; Python dictionaries with heterogeneous
values become association lists over an inductive `Value` type, with
Python truthiness modelled explicitly; calls into the wrapped library
(building the application, attaching handlers, polling, sending
messages, scheduling asyncio tasks) are recorded as an explicit effect
trace; a raised Python exception becomes `Except.error`; the mutable
`Application` object becomes a reference into an explicit heap, so that
object identity (as opposed to structural equality of copies) is
expressible.
-/

/-- A Telegram user as accessed by the source: `id` and `first_name`.
`first_name` is `Option String` so that the Python idiom
`first_name or ""` (which also maps an empty string to `""`) can be
modelled faithfully. -/
structure TgUser where
  id : Int
  first_name : Option String
deriving DecidableEq, Repr

/-- A Telegram chat; the source only reads `effective_chat.id`. -/
structure TgChat where
  id : Int
deriving DecidableEq, Repr

/-- A Telegram message as accessed by the source: `message_id`, optional
`text`, and whether the message carries a bot-command entity at offset 0
(what `filters.COMMAND` of the wrapped library matches). -/
structure TgMessage where
  message_id : Int
  text : Option String
  isCommand : Bool
deriving DecidableEq, Repr

/-- A Telegram update as accessed by the source.  `message` and
`effective_user` are explicitly tested for presence by the code, so they
are `Option`; `effective_chat` and `effective_message` are dereferenced
unconditionally (lines 54, 118, 237, 239 of the source), so they are
plain fields. -/
structure TgUpdate where
  message : Option TgMessage
  effective_chat : TgChat
  effective_user : Option TgUser
  effective_message : TgMessage
deriving DecidableEq, Repr

/-- A Python value as stored in the event-payload dictionaries of the
source: `None`, an integer, a string, or a `telegram.Update` object. -/
inductive Value where
  | pyNone
  | int (i : Int)
  | str (s : String)
  | upd (u : TgUpdate)
deriving DecidableEq, Repr

/-- Python truthiness for `Value`: `None`, `0` and `""` are falsy;
library objects such as `Update` are truthy. -/
def Value.truthy : Value → Bool
  | .pyNone => false
  | .int i => decide (i ≠ 0)
  | .str s => decide (s ≠ "")
  | .upd _ => true

/-- A Python dictionary with string keys, in insertion order. -/
abbrev PyDict := List (String × Value)

/-- `d.get(k)`: the value stored under `k`, or Python `None` when the
key is absent. -/
def dictGet (d : PyDict) (k : String) : Value :=
  match List.lookup k d with
  | some v => v
  | none => Value.pyNone

/-- Truthiness of an optional Python string (`None` and `""` falsy). -/
def strTruthy : Option String → Bool
  | none => false
  | some s => decide (s ≠ "")

/-- A raised Python exception, as far as the source distinguishes them:
`ValueError` (explicit `raise` statements) and `AttributeError`
(attribute access on `None`, e.g. `None.strip()`). -/
inductive PyError where
  | valueError (msg : String)
  | attributeError (msg : String)
deriving DecidableEq, Repr

/-- The arguments of a `bot.send_message` call as issued by the source:
`chat_id`, `text`, optional `parse_mode`, optional
`reply_to_message_id`. -/
structure SendCall where
  chat_id : Int
  text : Option String
  parse_mode : Option String
  reply_to_message_id : Option Int
deriving DecidableEq, Repr

/-- A handler attached to the application: the echo `MessageHandler`
(with filter `filters.TEXT & ~filters.COMMAND`) or a `CommandHandler`
for the stripped command, firing the stripped event name. -/
inductive Handler where
  | echoHandler
  | commandHandler (cmd : String) (evt : String)
deriving DecidableEq, Repr

/-- An observable interaction of the code with the wrapped library, the
asyncio loop, the host context, or stdout. -/
inductive Effect where
  | buildApplication (token : String)
  | addHandler (app : Nat) (h : Handler)
  | runPolling (app : Nat)
  | sendMessage (c : SendCall)
  | scheduleTask (c : SendCall)
  | printLine (s : String)
  | setPayload (listener : Nat) (p : PyDict)
  | invokeListener (listener : Nat)
deriving DecidableEq, Repr

/-- Whether an effect is a call into the wrapped library or the asyncio
machinery (as opposed to printing, or invoking host-context
listeners). -/
def Effect.isLibraryCall : Effect → Bool
  | .buildApplication _ => true
  | .addHandler _ _ => true
  | .runPolling _ => true
  | .sendMessage _ => true
  | .scheduleTask _ => true
  | _ => false

/-- References to mutable `Application` objects. -/
abbrev AppRef := Nat

/-- The mutable state of one `Application` object: its handler list. -/
structure AppObj where
  handlers : List Handler
deriving DecidableEq, Repr

/-- The heap of `Application` objects. -/
abbrev Heap := AppRef → AppObj

/-- `app.add_handler(h)`: mutate the object behind `r`, appending `h`
to its handler list. -/
def addHandlerOp (heap : Heap) (r : AppRef) (h : Handler) : Heap :=
  fun r2 => if r2 = r then { handlers := (heap r).handlers ++ [h] } else heap r2

/-- The host execution context, as the source uses it:
`ctx.get('events', {})` is a dictionary from event names to lists of
listeners (listeners are modelled by identifiers).  `events = none`
models a context without an `'events'` key. -/
structure Ctx where
  events : Option (List (String × List Nat))
deriving DecidableEq, Repr

/-- `ctx.get('events', {}).get(evt, [])` (source line 132). -/
def ctxListeners (ctx : Ctx) (evt : String) : List Nat :=
  match ctx.events with
  | none => []
  | some m =>
    match List.lookup evt m with
    | some ls => ls
    | none => []

/-- Python `str.strip()` with no argument: remove leading and trailing
whitespace.  Defined over the character list so that it evaluates by
kernel reduction. -/
def pyStrip (s : String) : String :=
  String.mk
    (((s.toList.dropWhile Char.isWhitespace).reverse.dropWhile
        Char.isWhitespace).reverse)

/-- `" ".join(context.args) if context.args else ""` (source line 117):
`context.args` is `None` or a list of strings; `None` and the empty
list are falsy. -/
def joinArgs : Option (List String) → String
  | none => ""
  | some args => if args.isEmpty then "" else String.intercalate " " args

/-- The event-payload dictionary built per command invocation
(source lines 124-130). -/
def commandPayload (cmd : String) (u : TgUpdate) (args : Option (List String)) : PyDict :=
  [("command_name", Value.str cmd),
   ("message_text", Value.str (joinArgs args)),
   ("chat_id", Value.int u.effective_chat.id),
   ("user_id", match u.effective_user with
               | some usr => Value.int usr.id
               | none => Value.pyNone),
   ("update", Value.upd u)]

/-- The `for listener in listeners` loop of `command_callback`
(source lines 133-136): assign the payload to the listener's payload
port, then invoke it via `SubGraphExecutor(listener).do(ctx)`. -/
def fireListeners (p : PyDict) : List Nat → List Effect
  | [] => []
  | l :: rest => Effect.setPayload l p :: Effect.invokeListener l :: fireListeners p rest

/-- `command_callback` (source lines 115-136), as the effect trace of
one invocation: build the payload, look the listener list up in the
host context, and fire each listener in order. -/
def commandCallback (cmd evt : String) (ctx : Ctx) (u : TgUpdate)
    (args : Option (List String)) : List Effect :=
  fireListeners (commandPayload cmd u args) (ctxListeners ctx evt)

/-- `TelegramInitApp.execute` (source lines 22-30): raise `ValueError`
when the token is falsy, otherwise build the application. -/
def initAppExecute (token : Option String) : List Effect × Except PyError Unit :=
  if strTruthy token then
    match token with
    | some t => ([Effect.buildApplication t], Except.ok ())
    | none => ([], Except.error (PyError.valueError "No Telegram token provided!"))
  else
    ([], Except.error (PyError.valueError "No Telegram token provided!"))

/-- `TelegramRunApp.execute` (source lines 78-84): raise `ValueError`
when the application is falsy, otherwise run the polling loop. -/
def runAppExecute (app : Option AppRef) : List Effect × Except PyError Unit :=
  match app with
  | none => ([], Except.error (PyError.valueError "No Telegram Application provided!"))
  | some r => ([Effect.runPolling r], Except.ok ())

/-- `TelegramAddEchoHandler.execute` (source lines 48-64): construct the
`MessageHandler` and attach it; the same application object is passed
to `application_out`.  On a `None` application, `app.add_handler`
raises `AttributeError`. -/
def addEchoHandlerExecute (heap : Heap) (app : Option AppRef) :
    List Effect × Except PyError (Heap × AppRef) :=
  match app with
  | none =>
    ([], Except.error (PyError.attributeError
      "NoneType object has no attribute add_handler"))
  | some r =>
    ([Effect.addHandler r Handler.echoHandler],
     Except.ok (addHandlerOp heap r Handler.echoHandler, r))

/-- `TelegramAddCommandEvent.execute` (source lines 105-141): strip
`command_name` and `event_name` (an `AttributeError` on `None`), check
presence of application and both stripped names (a `ValueError`), then
construct a `CommandHandler` for the stripped command, attach it, and
pass the same application object to `application_out`. -/
def addCommandEventExecute (heap : Heap) (app : Option AppRef)
    (command_name event_name : Option String) :
    List Effect × Except PyError (Heap × AppRef) :=
  match command_name with
  | none =>
    ([], Except.error (PyError.attributeError
      "NoneType object has no attribute strip"))
  | some c =>
    match event_name with
    | none =>
      ([], Except.error (PyError.attributeError
        "NoneType object has no attribute strip"))
    | some e =>
      let cmd := pyStrip c
      let evt := pyStrip e
      if app = none ∨ cmd = "" ∨ evt = "" then
        ([], Except.error (PyError.valueError
          "Application, command_name, and event_name are required."))
      else
        match app with
        | none =>
          ([], Except.error (PyError.valueError
            "Application, command_name, and event_name are required."))
        | some r =>
          ([Effect.addHandler r (Handler.commandHandler cmd evt)],
           Except.ok (addHandlerOp heap r (Handler.commandHandler cmd evt), r))

/-- The six output ports of `TelegramParsePayload`. -/
structure ParseOutputs where
  chat_id : Value
  user_id : Value
  message_text : Value
  update_obj : Value
  command_name : Value
  first_name : String
deriving DecidableEq, Repr

/-- The `first_name` derivation of `TelegramParsePayload.execute`
(source lines 189-193): `first_name = ""`, then, when
`payload.get("update")` is truthy and has a truthy `effective_user`,
`first_name = update.effective_user.first_name or ""`.  Attribute
access `update.effective_user` on a truthy non-`Update` value raises
`AttributeError`. -/
def firstNameOf (payload : PyDict) : Except PyError String :=
  let upd := dictGet payload "update"
  if upd.truthy then
    match upd with
    | Value.upd u =>
      match u.effective_user with
      | some usr =>
        Except.ok (match usr.first_name with
          | some s => if s = "" then "" else s
          | none => "")
      | none => Except.ok ""
    | _ => Except.error (PyError.attributeError
        "object has no attribute effective_user")
  else
    Except.ok ""

/-- `TelegramParsePayload.execute` (source lines 180-193):
`payload = event_payload or {}`, then `.get` each key into the
corresponding output port, then the `first_name` derivation. -/
def parsePayloadExecute (event_payload : Option PyDict) :
    Except PyError ParseOutputs :=
  let payload : PyDict := match event_payload with
    | none => []
    | some d => d
  match firstNameOf payload with
  | Except.error e => Except.error e
  | Except.ok fn =>
    Except.ok
      { chat_id := dictGet payload "chat_id"
        user_id := dictGet payload "user_id"
        message_text := dictGet payload "message_text"
        update_obj := dictGet payload "update"
        command_name := dictGet payload "command_name"
        first_name := fn }

/-- The `echo` coroutine installed by `TelegramAddEchoHandler`
(source lines 50-56): if `update.message and update.message.text` is
truthy, send the message text back to `update.effective_chat.id`
(no parse mode, no quoting). -/
def echoCallback (u : TgUpdate) : List Effect :=
  match u.message with
  | none => []
  | some m =>
    match m.text with
    | none => []
    | some t =>
      if t = "" then []
      else [Effect.sendMessage
        { chat_id := u.effective_chat.id
          text := some t
          parse_mode := none
          reply_to_message_id := none }]

/-- The filter `filters.TEXT & (~filters.COMMAND)` (source line 60):
the update has a message with (non-empty) text and the message does not
carry a bot-command entity at offset 0. -/
def echoFilter (u : TgUpdate) : Bool :=
  match u.message with
  | none => false
  | some m =>
    (match m.text with
     | none => false
     | some t => decide (t ≠ "")) && !m.isCommand

/-- The installed echo `MessageHandler` as dispatched by the wrapped
library: the callback runs only on updates the filter accepts. -/
def echoHandlerRun (u : TgUpdate) : List Effect :=
  if echoFilter u then echoCallback u else []

/-- `TelegramReplyToMessageEvent.execute` (source lines 218-250):
falsy application, falsy payload, or falsy `'update'` entry each print
a diagnostic and return without raising; otherwise read
`effective_chat.id` and `effective_message.message_id` from the update
and schedule `_send_reply` on the running event loop as a task, without
awaiting it.  A truthy non-`Update` value under `'update'` raises
`AttributeError` at the `update.effective_chat` access. -/
def replyExecute (app : Option AppRef) (event_payload : Option PyDict)
    (reply_text : Option String) : List Effect × Except PyError Unit :=
  match app with
  | none =>
    ([Effect.printLine "[TelegramReplyToMessage] No Telegram Application found!"],
     Except.ok ())
  | some _ =>
    match event_payload with
    | none =>
      ([Effect.printLine
         "[TelegramReplyToMessage] No event_payload provided, can\x27t reply."],
       Except.ok ())
    | some d =>
      if d.isEmpty then
        ([Effect.printLine
           "[TelegramReplyToMessage] No event_payload provided, can\x27t reply."],
         Except.ok ())
      else
        let upd := dictGet d "update"
        if upd.truthy then
          match upd with
          | Value.upd u =>
            ([Effect.scheduleTask
               { chat_id := u.effective_chat.id
                 text := reply_text
                 parse_mode := some "HTML"
                 reply_to_message_id := some u.effective_message.message_id }],
             Except.ok ())
          | _ =>
            ([], Except.error (PyError.attributeError
              "object has no attribute effective_chat"))
        else
          ([Effect.printLine
             "[TelegramReplyToMessage] No \x27update\x27 in event_payload, cannot reply."],
           Except.ok ())

/-- What the asyncio event loop does, after `execute` has returned, to
each task it scheduled: run `_send_reply`, whose `await
app.bot.send_message(...)` either succeeds or fails.  Either way the
component has already returned; a failure only surfaces inside the
task. -/
def runScheduled (sendOk : Bool) (c : SendCall) : List Effect :=
  if sendOk then [Effect.sendMessage c]
  else [Effect.printLine "Task exception was never retrieved"]

/-- The combined semantics of `TelegramReplyToMessageEvent.execute`
followed by the event loop draining the tasks it scheduled, with
`sendOk` the outcome of the `send_message` call: the trace of `execute`
comes first, then the scheduled sends; the component's own result is
fixed before any scheduled task runs. -/
def replySystem (app : Option AppRef) (event_payload : Option PyDict)
    (reply_text : Option String) (sendOk : Bool) :
    List Effect × Except PyError Unit :=
  let (tr, res) := replyExecute app event_payload reply_text
  (tr ++ (tr.filterMap (fun e => match e with
            | Effect.scheduleTask c => some c
            | _ => none)).flatMap (runScheduled sendOk),
   res)

/-- A concrete heap of fresh applications, for instantiations. -/
def heap0 : Heap := fun _ => { handlers := [] }

/-- The `'update'` entry of a payload dictionary is well formed for
attribute access: it is an `Update` object, or it is falsy (so the
short-circuiting `if update and update.effective_user` never touches
it). -/
def updateSlotOK (d : PyDict) : Bool :=
  match dictGet d "update" with
  | Value.upd _ => true
  | v => !v.truthy

/-- `updateSlotOK` lifted to the optional `event_payload` port value. -/
def updatePayloadOK : Option PyDict → Bool
  | none => true
  | some d => updateSlotOK d

theorem fireListeners_setPayload_mem (p : PyDict) (ls : List Nat) (l : Nat) (q : PyDict)
    (h : Effect.setPayload l q ∈ fireListeners p ls) : q = p := by
  induction ls with
  | nil => simp [fireListeners] at h
  | cons x xs ih =>
    simp only [fireListeners, List.mem_cons] at h
    rcases h with h | h | h
    · cases h; rfl
    · cases h
    · exact ih h

theorem fireListeners_eq_flatMap (p : PyDict) (ls : List Nat) :
    fireListeners p ls =
      ls.flatMap (fun l => [Effect.setPayload l p, Effect.invokeListener l]) := by
  induction ls with
  | nil => rfl
  | cons x xs ih => simp [fireListeners, ih]

/-- C1: corrected.  When a required input is absent, `TelegramInitApp`,
`TelegramRunApp` and `TelegramAddCommandEvent` do raise and perform no
call into the wrapped library; `TelegramReplyToMessageEvent`, however,
does not raise on a missing application or event payload: it prints a
diagnostic and returns normally (still performing no library call).
This theorem is the amended statement. -/
theorem C1_required_inputs :
    (∀ t, strTruthy t = false →
       initAppExecute t =
         ([], Except.error (PyError.valueError "No Telegram token provided!"))) ∧
    (runAppExecute none =
       ([], Except.error (PyError.valueError "No Telegram Application provided!"))) ∧
    (∀ heap app cn en,
       (app = none ∨ cn = none ∨ en = none ∨
        (∃ c, cn = some c ∧ pyStrip c = "") ∨ (∃ e, en = some e ∧ pyStrip e = "")) →
       (addCommandEventExecute heap app cn en).1 = [] ∧
       ∃ err, (addCommandEventExecute heap app cn en).2 = Except.error err) ∧
    (∀ app pl txt, (app = none ∨ pl = none ∨ pl = some []) →
       (replyExecute app pl txt).2 = Except.ok () ∧
       ∀ e ∈ (replyExecute app pl txt).1, e.isLibraryCall = false) := by
  refine ⟨?_, rfl, ?_, ?_⟩
  · intro t ht
    cases t with
    | none => rfl
    | some s =>
      simp only [strTruthy, decide_eq_false_iff_not, not_not] at ht
      subst ht
      rfl
  · intro heap app cn en h
    cases cn with
    | none => exact ⟨rfl, _, rfl⟩
    | some c =>
      cases en with
      | none => exact ⟨rfl, _, rfl⟩
      | some e =>
        have hcond : app = none ∨ pyStrip c = "" ∨ pyStrip e = "" := by
          rcases h with h | h | h | ⟨c2, hc2, hc2t⟩ | ⟨e2, he2, he2t⟩
          · exact Or.inl h
          · cases h
          · cases h
          · cases hc2; exact Or.inr (Or.inl hc2t)
          · cases he2; exact Or.inr (Or.inr he2t)
        have heq : addCommandEventExecute heap app (some c) (some e) =
            ([], Except.error (PyError.valueError
              "Application, command_name, and event_name are required.")) :=
          if_pos hcond
        rw [heq]
        exact ⟨rfl, _, rfl⟩
  · intro app pl txt h
    cases app with
    | none =>
      exact ⟨rfl, by simp [replyExecute, Effect.isLibraryCall]⟩
    | some a =>
      have hpl : pl = none ∨ pl = some [] := by
        rcases h with h | h | h
        · cases h
        · exact Or.inl h
        · exact Or.inr h
      rcases hpl with h2 | h2 <;> subst h2
      · exact ⟨rfl, by simp [replyExecute, Effect.isLibraryCall]⟩
      · exact ⟨rfl, by simp [replyExecute, Effect.isLibraryCall]⟩

/-- C1 witness: concrete instantiations of `C1_required_inputs`. -/
theorem C1_required_inputs_witness :
    initAppExecute none =
      ([], Except.error (PyError.valueError "No Telegram token provided!")) ∧
    ((addCommandEventExecute heap0 none (some "start") (some "evt")).1 = [] ∧
     ∃ err, (addCommandEventExecute heap0 none (some "start") (some "evt")).2 =
       Except.error err) ∧
    ((replyExecute (some 0) none (some "hi")).2 = Except.ok () ∧
     ∀ e ∈ (replyExecute (some 0) none (some "hi")).1, e.isLibraryCall = false) :=
  ⟨C1_required_inputs.1 none rfl,
   C1_required_inputs.2.2.1 heap0 none (some "start") (some "evt") (Or.inl rfl),
   C1_required_inputs.2.2.2 (some 0) none (some "hi") (Or.inr (Or.inl rfl))⟩

/-- C1 counterexample to the claim as stated: with the application input
absent (a required input of `TelegramReplyToMessageEvent`), `execute`
does not raise: it returns normally, having only printed a
diagnostic. -/
theorem C1_reply_does_not_raise :
    replyExecute none (some [("update", Value.int 1)]) (some "hi") =
      ([Effect.printLine "[TelegramReplyToMessage] No Telegram Application found!"],
       Except.ok ()) := rfl

/-- C2: every payload handed to a listener by `command_callback` is the
ad-hoc dictionary with exactly the five keys `command_name`,
`message_text`, `chat_id`, `user_id`, `update`; `command_name` maps to
the command the callback was registered with (which registration
strips), `chat_id` to `update.effective_chat.id`, `user_id` to
`update.effective_user.id` when an effective user exists and to `None`
otherwise, and `update` to the incoming update object. -/
theorem C2_payload_shape :
    (∀ cmd evt ctx u args l p,
       Effect.setPayload l p ∈ commandCallback cmd evt ctx u args →
         p = commandPayload cmd u args) ∧
    (∀ cmd u args,
       (commandPayload cmd u args).map Prod.fst =
         ["command_name", "message_text", "chat_id", "user_id", "update"] ∧
       dictGet (commandPayload cmd u args) "command_name" = Value.str cmd ∧
       dictGet (commandPayload cmd u args) "chat_id" =
         Value.int u.effective_chat.id ∧
       dictGet (commandPayload cmd u args) "user_id" =
         (match u.effective_user with
          | some usr => Value.int usr.id
          | none => Value.pyNone) ∧
       dictGet (commandPayload cmd u args) "update" = Value.upd u) ∧
    (∀ heap r c e heap2 rOut,
       (addCommandEventExecute heap (some r) (some c) (some e)).2 =
         Except.ok (heap2, rOut) →
       (heap2 r).handlers =
         (heap r).handlers ++ [Handler.commandHandler (pyStrip c) (pyStrip e)]) := by
  refine ⟨?_, ?_, ?_⟩
  · intro cmd evt ctx u args l p h
    exact fireListeners_setPayload_mem _ _ _ _ h
  · intro cmd u args
    exact ⟨rfl, rfl, rfl, rfl, rfl⟩
  · intro heap r c e heap2 rOut h
    by_cases hcond : (some r : Option AppRef) = none ∨ pyStrip c = "" ∨ pyStrip e = ""
    · have heq : addCommandEventExecute heap (some r) (some c) (some e) =
          ([], Except.error (PyError.valueError
            "Application, command_name, and event_name are required.")) :=
        if_pos hcond
      rw [heq] at h
      cases h
    · have heq : addCommandEventExecute heap (some r) (some c) (some e) =
          ([Effect.addHandler r (Handler.commandHandler (pyStrip c) (pyStrip e))],
           Except.ok (addHandlerOp heap r (Handler.commandHandler (pyStrip c) (pyStrip e)), r)) :=
        if_neg hcond
      rw [heq] at h
      cases h
      simp [addHandlerOp]

/-- C2 witness: concrete instantiations of `C2_payload_shape`, with a
one-listener context, an update in chat 7, and a registration with
padded names. -/
theorem C2_payload_shape_witness :
    commandPayload "start" ⟨none, ⟨7⟩, some ⟨9, some "Ann"⟩, ⟨42, none, false⟩⟩
        (some ["a", "b"]) =
      commandPayload "start" ⟨none, ⟨7⟩, some ⟨9, some "Ann"⟩, ⟨42, none, false⟩⟩
        (some ["a", "b"]) ∧
    dictGet (commandPayload "start" ⟨none, ⟨7⟩, some ⟨9, some "Ann"⟩, ⟨42, none, false⟩⟩
        (some ["a", "b"])) "chat_id" = Value.int 7 ∧
    ((addHandlerOp heap0 0 (Handler.commandHandler (pyStrip " start ") (pyStrip " evt "))) 0).handlers =
      (heap0 0).handlers ++ [Handler.commandHandler (pyStrip " start ") (pyStrip " evt ")] :=
  ⟨C2_payload_shape.1 "start" "evt" ⟨some [("evt", [3])]⟩
      ⟨none, ⟨7⟩, some ⟨9, some "Ann"⟩, ⟨42, none, false⟩⟩ (some ["a", "b"]) 3 _
      (by decide),
   (C2_payload_shape.2.1 "start" ⟨none, ⟨7⟩, some ⟨9, some "Ann"⟩, ⟨42, none, false⟩⟩
      (some ["a", "b"])).2.2.1,
   by
     have hne : ¬((some 0 : Option AppRef) = none ∨
         pyStrip " start " = "" ∨ pyStrip " evt " = "") := by decide
     have heq : addCommandEventExecute heap0 (some 0) (some " start ") (some " evt ") =
         ([Effect.addHandler 0 (Handler.commandHandler (pyStrip " start ") (pyStrip " evt "))],
          Except.ok (addHandlerOp heap0 0
            (Handler.commandHandler (pyStrip " start ") (pyStrip " evt ")), 0)) := by
       show (if (some 0 : Option AppRef) = none ∨
               pyStrip " start " = "" ∨ pyStrip " evt " = "" then
           ([], Except.error (PyError.valueError
             "Application, command_name, and event_name are required."))
         else
           ([Effect.addHandler 0 (Handler.commandHandler (pyStrip " start ") (pyStrip " evt "))],
            Except.ok (addHandlerOp heap0 0
              (Handler.commandHandler (pyStrip " start ") (pyStrip " evt ")), 0))) = _
       exact if_neg hne
     exact C2_payload_shape.2.2 heap0 0 " start " " evt "
       (addHandlerOp heap0 0 (Handler.commandHandler (pyStrip " start ") (pyStrip " evt "))) 0
       (by rw [heq])⟩

/-- C3: when a registered command fires, `command_callback` looks the
listener list up under the event name in the host context's `'events'`
mapping and, for each listener in list order, assigns the payload to
its payload port and then invokes it synchronously; with no `'events'`
entry or no list under the event name, no listener is invoked and the
callback completes (with an empty effect trace, hence without
error). -/
theorem C3_listener_dispatch :
    (∀ cmd evt ctx u args,
       commandCallback cmd evt ctx u args =
         (ctxListeners ctx evt).flatMap (fun l =>
           [Effect.setPayload l (commandPayload cmd u args),
            Effect.invokeListener l])) ∧
    (∀ cmd evt ctx u args, ctx.events = none →
       commandCallback cmd evt ctx u args = []) ∧
    (∀ cmd evt ctx u args m, ctx.events = some m →
       List.lookup evt m = none →
       commandCallback cmd evt ctx u args = []) := by
  refine ⟨?_, ?_, ?_⟩
  · intro cmd evt ctx u args
    exact fireListeners_eq_flatMap _ _
  · intro cmd evt ctx u args h
    simp [commandCallback, ctxListeners, h, fireListeners]
  · intro cmd evt ctx u args m hm hl
    simp [commandCallback, ctxListeners, hm, hl, fireListeners]

/-- C3 witness: a context without an `'events'` entry, a context whose
`'events'` mapping lacks the event name, and a two-listener dispatch in
order. -/
theorem C3_listener_dispatch_witness :
    commandCallback "start" "evt" ⟨none⟩ ⟨none, ⟨7⟩, none, ⟨42, none, false⟩⟩ none = [] ∧
    commandCallback "start" "evt" ⟨some [("other", [1])]⟩
      ⟨none, ⟨7⟩, none, ⟨42, none, false⟩⟩ none = [] ∧
    commandCallback "start" "evt" ⟨some [("evt", [3, 5])]⟩
        ⟨none, ⟨7⟩, none, ⟨42, none, false⟩⟩ none =
      [Effect.setPayload 3
         (commandPayload "start" ⟨none, ⟨7⟩, none, ⟨42, none, false⟩⟩ none),
       Effect.invokeListener 3,
       Effect.setPayload 5
         (commandPayload "start" ⟨none, ⟨7⟩, none, ⟨42, none, false⟩⟩ none),
       Effect.invokeListener 5] :=
  ⟨C3_listener_dispatch.2.1 "start" "evt" ⟨none⟩
     ⟨none, ⟨7⟩, none, ⟨42, none, false⟩⟩ none rfl,
   C3_listener_dispatch.2.2 "start" "evt" ⟨some [("other", [1])]⟩
     ⟨none, ⟨7⟩, none, ⟨42, none, false⟩⟩ none [("other", [1])] rfl (by decide),
   by
     rw [C3_listener_dispatch.1 "start" "evt" ⟨some [("evt", [3, 5])]⟩
       ⟨none, ⟨7⟩, none, ⟨42, none, false⟩⟩ none]
     rfl⟩

/-- C5: the `message_text` field of the payload is the command's
arguments joined with single spaces, and the empty string when the
command came with no arguments (`context.args` empty or `None`). -/
theorem C5_message_text :
    (∀ cmd u args, args ≠ [] →
       dictGet (commandPayload cmd u (some args)) "message_text" =
         Value.str (String.intercalate " " args)) ∧
    (∀ cmd u,
       dictGet (commandPayload cmd u none) "message_text" = Value.str "" ∧
       dictGet (commandPayload cmd u (some [])) "message_text" = Value.str "") := by
  constructor
  · intro cmd u args h
    have hjoin : joinArgs (some args) = String.intercalate " " args := by
      cases args with
      | nil => cases h rfl
      | cons a as => rfl
    show Value.str (joinArgs (some args)) = Value.str (String.intercalate " " args)
    rw [hjoin]
  · intro cmd u
    exact ⟨rfl, rfl⟩

/-- C5 witness: a two-argument invocation and a no-argument
invocation. -/
theorem C5_message_text_witness :
    dictGet (commandPayload "start" ⟨none, ⟨7⟩, none, ⟨42, none, false⟩⟩
        (some ["a", "b"])) "message_text" =
      Value.str (String.intercalate " " ["a", "b"]) ∧
    dictGet (commandPayload "start" ⟨none, ⟨7⟩, none, ⟨42, none, false⟩⟩ none)
        "message_text" = Value.str "" :=
  ⟨C5_message_text.1 "start" ⟨none, ⟨7⟩, none, ⟨42, none, false⟩⟩ ["a", "b"]
     (by decide),
   (C5_message_text.2 "start" ⟨none, ⟨7⟩, none, ⟨42, none, false⟩⟩).1⟩

theorem replyExecute_valid (a : AppRef) (d : PyDict) (txt : Option String) (u : TgUpdate)
    (h : dictGet d "update" = Value.upd u) :
    replyExecute (some a) (some d) txt =
      ([Effect.scheduleTask
         { chat_id := u.effective_chat.id
           text := txt
           parse_mode := some "HTML"
           reply_to_message_id := some u.effective_message.message_id }],
       Except.ok ()) := by
  have hd : d.isEmpty = false := by
    cases d with
    | nil => simp [dictGet, List.lookup] at h
    | cons kv rest => rfl
  simp only [replyExecute, hd, Bool.false_eq_true, if_false, h, Value.truthy, if_true]

theorem replyExecute_trace_cases (app : Option AppRef) (pl : Option PyDict)
    (txt : Option String) :
    (∃ s, (replyExecute app pl txt).1 = [Effect.printLine s]) ∨
    (∃ c, (replyExecute app pl txt).1 = [Effect.scheduleTask c]) ∨
    (replyExecute app pl txt).1 = [] := by
  cases app with
  | none => exact Or.inl ⟨_, rfl⟩
  | some a =>
    cases pl with
    | none => exact Or.inl ⟨_, rfl⟩
    | some d =>
      by_cases hd : d.isEmpty
      · refine Or.inl ⟨"[TelegramReplyToMessage] No event_payload provided, can\x27t reply.", ?_⟩
        simp only [replyExecute, hd, if_true]
      · have hd2 : d.isEmpty = false := by simpa using hd
        cases hv : dictGet d "update" with
        | upd u =>
          refine Or.inr (Or.inl ⟨{ chat_id := u.effective_chat.id, text := txt, parse_mode := some "HTML", reply_to_message_id := some u.effective_message.message_id }, ?_⟩)
          rw [replyExecute_valid a d txt u hv]
        | pyNone =>
          refine Or.inl ⟨"[TelegramReplyToMessage] No \x27update\x27 in event_payload, cannot reply.", ?_⟩
          simp only [replyExecute, hd2, Bool.false_eq_true, if_false, hv, Value.truthy]
        | int i =>
          by_cases hi : i = 0
          · refine Or.inl ⟨"[TelegramReplyToMessage] No \x27update\x27 in event_payload, cannot reply.", ?_⟩
            simp only [replyExecute, hd2, Bool.false_eq_true, if_false, hv, Value.truthy, hi]
            simp
          · refine Or.inr (Or.inr ?_)
            simp only [replyExecute, hd2, Bool.false_eq_true, if_false, hv, Value.truthy, hi]
            simp [hi]
        | str s =>
          by_cases hs : s = ""
          · refine Or.inl ⟨"[TelegramReplyToMessage] No \x27update\x27 in event_payload, cannot reply.", ?_⟩
            simp only [replyExecute, hd2, Bool.false_eq_true, if_false, hv, Value.truthy, hs]
            simp
          · refine Or.inr (Or.inr ?_)
            simp only [replyExecute, hd2, Bool.false_eq_true, if_false, hv, Value.truthy, hs]
            simp [hs]

/-- C4: with an application, a payload whose `'update'` entry is an
update object, and a reply text, `TelegramReplyToMessageEvent`
schedules exactly one `send_message` call whose arguments are precisely
`chat_id = update.effective_chat.id`, `text = reply_text`,
`parse_mode = HTML` and
`reply_to_message_id = update.effective_message.message_id`; when the
event loop runs the scheduled task, `send_message` is invoked with
exactly those arguments. -/
theorem C4_reply_send_arguments :
    ∀ a d txt u, dictGet d "update" = Value.upd u →
      replyExecute (some a) (some d) (some txt) =
        ([Effect.scheduleTask
           { chat_id := u.effective_chat.id
             text := some txt
             parse_mode := some "HTML"
             reply_to_message_id := some u.effective_message.message_id }],
         Except.ok ()) ∧
      (replySystem (some a) (some d) (some txt) true).1 =
        [Effect.scheduleTask
           { chat_id := u.effective_chat.id
             text := some txt
             parse_mode := some "HTML"
             reply_to_message_id := some u.effective_message.message_id },
         Effect.sendMessage
           { chat_id := u.effective_chat.id
             text := some txt
             parse_mode := some "HTML"
             reply_to_message_id := some u.effective_message.message_id }] := by
  intro a d txt u h
  have he := replyExecute_valid a d (some txt) u h
  refine ⟨he, ?_⟩
  simp [replySystem, he, runScheduled]

/-- C4 witness: a concrete reply in chat 7 quoting message 42. -/
theorem C4_reply_send_arguments_witness :
    replyExecute (some 0)
        (some [("update", Value.upd ⟨none, ⟨7⟩, none, ⟨42, none, false⟩⟩)])
        (some "yo") =
      ([Effect.scheduleTask
         { chat_id := 7, text := some "yo", parse_mode := some "HTML",
           reply_to_message_id := some 42 }],
       Except.ok ()) ∧
    (replySystem (some 0)
        (some [("update", Value.upd ⟨none, ⟨7⟩, none, ⟨42, none, false⟩⟩)])
        (some "yo") true).1 =
      [Effect.scheduleTask
         { chat_id := 7, text := some "yo", parse_mode := some "HTML",
           reply_to_message_id := some 42 },
       Effect.sendMessage
         { chat_id := 7, text := some "yo", parse_mode := some "HTML",
           reply_to_message_id := some 42 }] :=
  C4_reply_send_arguments 0
    [("update", Value.upd ⟨none, ⟨7⟩, none, ⟨42, none, false⟩⟩)] "yo"
    ⟨none, ⟨7⟩, none, ⟨42, none, false⟩⟩ rfl

/-- C7: `TelegramReplyToMessageEvent.execute` is fire-and-forget: its
own effect trace never contains a performed `send_message` (on valid
inputs it is exactly one scheduled task); in the combined semantics the
scheduled send runs only after the trace of `execute`, and the
component's result is the same whether the send succeeds or fails. -/
theorem C7_fire_and_forget :
    (∀ app pl txt o1 o2,
       (replySystem app pl txt o1).2 = (replySystem app pl txt o2).2) ∧
    (∀ app pl txt o, ∃ rest,
       (replySystem app pl txt o).1 = (replyExecute app pl txt).1 ++ rest) ∧
    (∀ app pl txt c, Effect.sendMessage c ∉ (replyExecute app pl txt).1) ∧
    (∀ a d txt u, dictGet d "update" = Value.upd u →
       (replyExecute (some a) (some d) txt).1 =
         [Effect.scheduleTask
           { chat_id := u.effective_chat.id
             text := txt
             parse_mode := some "HTML"
             reply_to_message_id := some u.effective_message.message_id }]) := by
  refine ⟨?_, ?_, ?_, ?_⟩
  · intro app pl txt o1 o2
    cases he : replyExecute app pl txt with
    | mk tr res => simp [replySystem, he]
  · intro app pl txt o
    cases he : replyExecute app pl txt with
    | mk tr res =>
      exact ⟨(tr.filterMap (fun e => match e with
               | Effect.scheduleTask c => some c
               | _ => none)).flatMap (runScheduled o), by simp [replySystem, he]⟩
  · intro app pl txt c hmem
    rcases replyExecute_trace_cases app pl txt with ⟨s, hs⟩ | ⟨c2, hc⟩ | hnil
    · rw [hs] at hmem; simp at hmem
    · rw [hc] at hmem; simp at hmem
    · rw [hnil] at hmem; simp at hmem
  · intro a d txt u h
    rw [replyExecute_valid a d txt u h]

/-- C7 witness: on a concrete valid input, the component's result is
independent of the send outcome and `execute` only schedules the
send. -/
theorem C7_fire_and_forget_witness :
    (replySystem (some 0)
        (some [("update", Value.upd ⟨none, ⟨7⟩, none, ⟨42, none, false⟩⟩)])
        (some "yo") true).2 =
      (replySystem (some 0)
        (some [("update", Value.upd ⟨none, ⟨7⟩, none, ⟨42, none, false⟩⟩)])
        (some "yo") false).2 ∧
    (replyExecute (some 0)
        (some [("update", Value.upd ⟨none, ⟨7⟩, none, ⟨42, none, false⟩⟩)])
        (some "yo")).1 =
      [Effect.scheduleTask
         { chat_id := 7, text := some "yo", parse_mode := some "HTML",
           reply_to_message_id := some 42 }] :=
  ⟨C7_fire_and_forget.1 (some 0)
     (some [("update", Value.upd ⟨none, ⟨7⟩, none, ⟨42, none, false⟩⟩)])
     (some "yo") true false,
   C7_fire_and_forget.2.2.2 0
     [("update", Value.upd ⟨none, ⟨7⟩, none, ⟨42, none, false⟩⟩)] (some "yo")
     ⟨none, ⟨7⟩, none, ⟨42, none, false⟩⟩ rfl⟩

/-- C6: `TelegramAddEchoHandler` and `TelegramAddCommandEvent` pass the
application through: on success, the output port holds the very same
application reference that came in (not a copy), the object behind the
reference has the new handler appended, and no other application object
is touched. -/
theorem C6_application_identity :
    (∀ heap r heap2 rOut,
       (addEchoHandlerExecute heap (some r)).2 = Except.ok (heap2, rOut) →
         rOut = r ∧
         (heap2 r).handlers = (heap r).handlers ++ [Handler.echoHandler] ∧
         ∀ r2, r2 ≠ r → heap2 r2 = heap r2) ∧
    (∀ heap r c e heap2 rOut,
       (addCommandEventExecute heap (some r) (some c) (some e)).2 =
         Except.ok (heap2, rOut) →
         rOut = r ∧
         (heap2 r).handlers =
           (heap r).handlers ++ [Handler.commandHandler (pyStrip c) (pyStrip e)] ∧
         ∀ r2, r2 ≠ r → heap2 r2 = heap r2) := by
  constructor
  · intro heap r heap2 rOut h
    have h2 : (Except.ok (addHandlerOp heap r Handler.echoHandler, r) :
          Except PyError (Heap × AppRef)) =
        Except.ok (heap2, rOut) := h
    simp only [Except.ok.injEq, Prod.mk.injEq] at h2
    obtain ⟨hh, hr⟩ := h2
    subst hh
    subst hr
    refine ⟨rfl, by simp [addHandlerOp], ?_⟩
    intro r2 hne
    simp [addHandlerOp, hne]
  · intro heap r c e heap2 rOut h
    by_cases hcond : (some r : Option AppRef) = none ∨ pyStrip c = "" ∨ pyStrip e = ""
    · have heq : addCommandEventExecute heap (some r) (some c) (some e) =
          ([], Except.error (PyError.valueError
            "Application, command_name, and event_name are required.")) :=
        if_pos hcond
      rw [heq] at h
      cases h
    · have heq : addCommandEventExecute heap (some r) (some c) (some e) =
          ([Effect.addHandler r (Handler.commandHandler (pyStrip c) (pyStrip e))],
           Except.ok (addHandlerOp heap r
             (Handler.commandHandler (pyStrip c) (pyStrip e)), r)) :=
        if_neg hcond
      rw [heq] at h
      simp only [Except.ok.injEq, Prod.mk.injEq] at h
      obtain ⟨hh, hr⟩ := h
      subst hh
      subst hr
      refine ⟨rfl, by simp [addHandlerOp], ?_⟩
      intro r2 hne
      simp [addHandlerOp, hne]

/-- C6 witness: concrete pass-through of application 0 for both
components. -/
theorem C6_application_identity_witness :
    (0 = 0 ∧
     ((addHandlerOp heap0 0 Handler.echoHandler) 0).handlers =
       (heap0 0).handlers ++ [Handler.echoHandler] ∧
     ∀ r2, r2 ≠ 0 → (addHandlerOp heap0 0 Handler.echoHandler) r2 = heap0 r2) ∧
    (0 = 0 ∧
     ((addHandlerOp heap0 0
        (Handler.commandHandler (pyStrip "start") (pyStrip "evt"))) 0).handlers =
       (heap0 0).handlers ++
         [Handler.commandHandler (pyStrip "start") (pyStrip "evt")] ∧
     ∀ r2, r2 ≠ 0 →
       (addHandlerOp heap0 0
         (Handler.commandHandler (pyStrip "start") (pyStrip "evt"))) r2 = heap0 r2) :=
  ⟨C6_application_identity.1 heap0 0 (addHandlerOp heap0 0 Handler.echoHandler) 0 rfl,
   by
     have hne : ¬((some 0 : Option AppRef) = none ∨
         pyStrip "start" = "" ∨ pyStrip "evt" = "") := by decide
     have heq : addCommandEventExecute heap0 (some 0) (some "start") (some "evt") =
         ([Effect.addHandler 0 (Handler.commandHandler (pyStrip "start") (pyStrip "evt"))],
          Except.ok (addHandlerOp heap0 0
            (Handler.commandHandler (pyStrip "start") (pyStrip "evt")), 0)) := by
       show (if (some 0 : Option AppRef) = none ∨
               pyStrip "start" = "" ∨ pyStrip "evt" = "" then
           ([], Except.error (PyError.valueError
             "Application, command_name, and event_name are required."))
         else
           ([Effect.addHandler 0 (Handler.commandHandler (pyStrip "start") (pyStrip "evt"))],
            Except.ok (addHandlerOp heap0 0
              (Handler.commandHandler (pyStrip "start") (pyStrip "evt")), 0))) = _
       exact if_neg hne
     exact C6_application_identity.2 heap0 0 "start" "evt"
       (addHandlerOp heap0 0 (Handler.commandHandler (pyStrip "start") (pyStrip "evt"))) 0
       (by rw [heq])⟩

/-- C8: the echo callback sends back exactly the incoming message's
text to `update.effective_chat.id` when the update has a message with
non-empty text, and sends nothing when there is no message or no
(non-empty) text; updates filtered out as commands never reach the
callback through the installed handler, so they send nothing. -/
theorem C8_echo_behavior :
    (∀ u m t, u.message = some m → m.text = some t → t ≠ "" →
       echoCallback u =
         [Effect.sendMessage
           { chat_id := u.effective_chat.id, text := some t,
             parse_mode := none, reply_to_message_id := none }]) ∧
    (∀ u, (u.message = none ∨
           ∃ m, u.message = some m ∧ (m.text = none ∨ m.text = some "")) →
       echoCallback u = []) ∧
    (∀ u m, u.message = some m → m.isCommand = true → echoHandlerRun u = []) := by
  refine ⟨?_, ?_, ?_⟩
  · intro u m t hm ht hne
    simp [echoCallback, hm, ht, hne]
  · intro u h
    rcases h with h | ⟨m, hm, h⟩
    · simp [echoCallback, h]
    · rcases h with h | h <;> simp [echoCallback, hm, h]
  · intro u m hm hc
    simp [echoHandlerRun, echoFilter, hm, hc]

/-- C8 witness: a text message is echoed; a message-less update and a
command update send nothing. -/
theorem C8_echo_behavior_witness :
    echoCallback ⟨some ⟨1, some "hello", false⟩, ⟨7⟩, none, ⟨1, some "hello", false⟩⟩ =
      [Effect.sendMessage
        { chat_id := 7, text := some "hello",
          parse_mode := none, reply_to_message_id := none }] ∧
    echoCallback ⟨none, ⟨7⟩, none, ⟨1, none, false⟩⟩ = [] ∧
    echoHandlerRun ⟨some ⟨1, some "/start", true⟩, ⟨7⟩, none, ⟨1, some "/start", true⟩⟩ = [] :=
  ⟨C8_echo_behavior.1 ⟨some ⟨1, some "hello", false⟩, ⟨7⟩, none, ⟨1, some "hello", false⟩⟩
     ⟨1, some "hello", false⟩ "hello" rfl rfl (by decide),
   C8_echo_behavior.2.1 ⟨none, ⟨7⟩, none, ⟨1, none, false⟩⟩ (Or.inl rfl),
   C8_echo_behavior.2.2 ⟨some ⟨1, some "/start", true⟩, ⟨7⟩, none, ⟨1, some "/start", true⟩⟩
     ⟨1, some "/start", true⟩ rfl rfl⟩

/-- C10: `TelegramAddCommandEvent` strips the command and event names
before the presence check and before use: a successful registration
attaches the handler under the stripped names; a whitespace-only name
is rejected with the same `ValueError` as a missing one; a `None` name
fails at the `.strip()` call (`AttributeError`), before the presence
check can raise `ValueError`. -/
theorem C10_strip_before_check :
    (∀ heap r c e heap2 rOut,
       (addCommandEventExecute heap (some r) (some c) (some e)).2 =
         Except.ok (heap2, rOut) →
       (heap2 rOut).handlers =
         (heap rOut).handlers ++ [Handler.commandHandler (pyStrip c) (pyStrip e)]) ∧
    (∀ heap app c e, (pyStrip c = "" ∨ pyStrip e = "") →
       addCommandEventExecute heap app (some c) (some e) =
         ([], Except.error (PyError.valueError
           "Application, command_name, and event_name are required."))) ∧
    (∀ heap app en, addCommandEventExecute heap app none en =
       ([], Except.error (PyError.attributeError
         "NoneType object has no attribute strip"))) ∧
    (∀ heap app c, addCommandEventExecute heap app (some c) none =
       ([], Except.error (PyError.attributeError
         "NoneType object has no attribute strip"))) := by
  refine ⟨?_, ?_, ?_, ?_⟩
  · intro heap r c e heap2 rOut h
    by_cases hcond : (some r : Option AppRef) = none ∨ pyStrip c = "" ∨ pyStrip e = ""
    · have heq : addCommandEventExecute heap (some r) (some c) (some e) =
          ([], Except.error (PyError.valueError
            "Application, command_name, and event_name are required.")) :=
        if_pos hcond
      rw [heq] at h
      cases h
    · have heq : addCommandEventExecute heap (some r) (some c) (some e) =
          ([Effect.addHandler r (Handler.commandHandler (pyStrip c) (pyStrip e))],
           Except.ok (addHandlerOp heap r
             (Handler.commandHandler (pyStrip c) (pyStrip e)), r)) :=
        if_neg hcond
      rw [heq] at h
      simp only [Except.ok.injEq, Prod.mk.injEq] at h
      obtain ⟨hh, hr⟩ := h
      subst hh
      subst hr
      simp [addHandlerOp]
  · intro heap app c e h
    exact if_pos (Or.inr h)
  · intro heap app en
    rfl
  · intro heap app c
    rfl

/-- C10 witness: registration under stripped names, rejection of a
whitespace-only command, and the `AttributeError` on a `None` name. -/
theorem C10_strip_before_check_witness :
    ((addHandlerOp heap0 1 (Handler.commandHandler (pyStrip " go ") (pyStrip " ev "))) 1).handlers =
      (heap0 1).handlers ++ [Handler.commandHandler (pyStrip " go ") (pyStrip " ev ")] ∧
    addCommandEventExecute heap0 (some 1) (some "   ") (some "ev") =
      ([], Except.error (PyError.valueError
        "Application, command_name, and event_name are required.")) ∧
    addCommandEventExecute heap0 (some 1) none (some "ev") =
      ([], Except.error (PyError.attributeError
        "NoneType object has no attribute strip")) :=
  ⟨by
     have hne : ¬((some 1 : Option AppRef) = none ∨
         pyStrip " go " = "" ∨ pyStrip " ev " = "") := by decide
     have heq : addCommandEventExecute heap0 (some 1) (some " go ") (some " ev ") =
         ([Effect.addHandler 1 (Handler.commandHandler (pyStrip " go ") (pyStrip " ev "))],
          Except.ok (addHandlerOp heap0 1
            (Handler.commandHandler (pyStrip " go ") (pyStrip " ev ")), 1)) := by
       show (if (some 1 : Option AppRef) = none ∨
               pyStrip " go " = "" ∨ pyStrip " ev " = "" then
           ([], Except.error (PyError.valueError
             "Application, command_name, and event_name are required."))
         else
           ([Effect.addHandler 1 (Handler.commandHandler (pyStrip " go ") (pyStrip " ev "))],
            Except.ok (addHandlerOp heap0 1
              (Handler.commandHandler (pyStrip " go ") (pyStrip " ev ")), 1))) = _
       exact if_neg hne
     exact C10_strip_before_check.1 heap0 1 " go " " ev "
       (addHandlerOp heap0 1 (Handler.commandHandler (pyStrip " go ") (pyStrip " ev "))) 1
       (by rw [heq]),
   C10_strip_before_check.2.1 heap0 (some 1) "   " "ev" (Or.inl (by decide)),
   C10_strip_before_check.2.2.1 heap0 (some 1) (some "ev")⟩

theorem firstNameOf_of_ok (d : PyDict) (h : updateSlotOK d = true) :
    ∃ fn, firstNameOf d = Except.ok fn := by
  unfold firstNameOf
  by_cases ht : (dictGet d "update").truthy
  case neg =>
    refine ⟨"", ?_⟩
    simp [ht]
  case pos =>
    unfold updateSlotOK at h
    cases hv : dictGet d "update" with
    | upd u =>
      cases hu : u.effective_user with
      | some usr =>
        cases hf : usr.first_name with
        | some s =>
          by_cases hs : s = ""
          · exact ⟨"", by simp [hv, Value.truthy, hu, hf, hs]⟩
          · exact ⟨s, by simp [hv, Value.truthy, hu, hf, hs]⟩
        | none => exact ⟨"", by simp [hv, Value.truthy, hu, hf]⟩
      | none => exact ⟨"", by simp [hv, Value.truthy, hu]⟩
    | pyNone =>
      rw [hv] at ht
      simp [Value.truthy] at ht
    | int i =>
      rw [hv] at h ht
      simp [Value.truthy] at h ht
      exact absurd h ht
    | str s =>
      rw [hv] at h ht
      simp [Value.truthy] at h ht
      exact absurd h ht

/-- C9: `TelegramParsePayload.execute` never raises on any event
payload whose update entry (if present and truthy) is an update
object, including `None` payloads and dictionaries missing any expected
key; each of `chat_id`, `user_id`, `message_text`, `update_obj` and
`command_name` is set to the value the payload holds for the
corresponding key (`None` when the key or the payload is absent), and
`first_name` is the `effective_user.first_name` of the update when the
payload carries an update with an effective user and a non-empty first
name, and the empty string otherwise. -/
theorem C9_parse_total :
    (∀ pl, updatePayloadOK pl = true →
       ∃ out, parsePayloadExecute pl = Except.ok out) ∧
    (parsePayloadExecute none =
       Except.ok ⟨Value.pyNone, Value.pyNone, Value.pyNone, Value.pyNone,
         Value.pyNone, ""⟩) ∧
    (∀ d out, parsePayloadExecute (some d) = Except.ok out →
       out.chat_id = dictGet d "chat_id" ∧
       out.user_id = dictGet d "user_id" ∧
       out.message_text = dictGet d "message_text" ∧
       out.update_obj = dictGet d "update" ∧
       out.command_name = dictGet d "command_name") ∧
    (∀ d k, List.lookup k d = none → dictGet d k = Value.pyNone) ∧
    (∀ d u usr fn out, parsePayloadExecute (some d) = Except.ok out →
       dictGet d "update" = Value.upd u → u.effective_user = some usr →
       usr.first_name = some fn → fn ≠ "" → out.first_name = fn) ∧
    (∀ d u out, parsePayloadExecute (some d) = Except.ok out →
       dictGet d "update" = Value.upd u →
       (u.effective_user = none ∨
        ∃ usr, u.effective_user = some usr ∧
          (usr.first_name = none ∨ usr.first_name = some "")) →
       out.first_name = "") ∧
    (∀ d out, parsePayloadExecute (some d) = Except.ok out →
       (dictGet d "update").truthy = false → out.first_name = "") := by
  have hout : ∀ d out, parsePayloadExecute (some d) = Except.ok out →
      ∃ fn, firstNameOf d = Except.ok fn ∧
        out = { chat_id := dictGet d "chat_id"
                user_id := dictGet d "user_id"
                message_text := dictGet d "message_text"
                update_obj := dictGet d "update"
                command_name := dictGet d "command_name"
                first_name := fn } := by
    intro d out h
    simp only [parsePayloadExecute] at h
    cases hfn : firstNameOf d with
    | error e => rw [hfn] at h; cases h
    | ok fn =>
      rw [hfn] at h
      simp only [Except.ok.injEq] at h
      exact ⟨fn, rfl, h.symm⟩
  refine ⟨?_, rfl, ?_, ?_, ?_, ?_, ?_⟩
  · intro pl hok
    cases pl with
    | none => exact ⟨_, rfl⟩
    | some d =>
      obtain ⟨fn, hfn⟩ := firstNameOf_of_ok d hok
      exact ⟨_, by simp only [parsePayloadExecute]; rw [hfn]⟩
  · intro d out h
    obtain ⟨fn, hfn, hout2⟩ := hout d out h
    subst hout2
    exact ⟨rfl, rfl, rfl, rfl, rfl⟩
  · intro d k h
    simp [dictGet, h]
  · intro d u usr fn out h hv hu hfn hne
    obtain ⟨fn2, hfn2, hout2⟩ := hout d out h
    subst hout2
    unfold firstNameOf at hfn2
    rw [hv] at hfn2
    simp only [Value.truthy, if_true] at hfn2
    rw [hu] at hfn2
    simp only [hfn, Except.ok.injEq] at hfn2
    rw [if_neg hne] at hfn2
    exact hfn2.symm
  · intro d u out h hv hcase
    obtain ⟨fn2, hfn2, hout2⟩ := hout d out h
    subst hout2
    unfold firstNameOf at hfn2
    rw [hv] at hfn2
    simp only [Value.truthy, if_true] at hfn2
    rcases hcase with hu | ⟨usr, hu, hfn⟩
    · rw [hu] at hfn2
      simp only [Except.ok.injEq] at hfn2
      exact hfn2.symm
    · rw [hu] at hfn2
      rcases hfn with hfn | hfn <;>
        simp only [hfn, Except.ok.injEq] at hfn2 <;>
        simp_all
  · intro d out h hfalsy
    obtain ⟨fn2, hfn2, hout2⟩ := hout d out h
    subst hout2
    unfold firstNameOf at hfn2
    simp only [hfalsy, Bool.false_eq_true, if_false, Except.ok.injEq] at hfn2
    exact hfn2.symm

/-- C9 witness: a payload with a `chat_id`, an update carrying user
Ann, and every other key missing. -/
theorem C9_parse_total_witness :
    (∃ out, parsePayloadExecute (some [("chat_id", Value.int 5),
       ("update", Value.upd ⟨none, ⟨7⟩, some ⟨9, some "Ann"⟩, ⟨42, none, false⟩⟩)]) =
       Except.ok out) ∧
    ((⟨Value.int 5, Value.pyNone, Value.pyNone,
        Value.upd ⟨none, ⟨7⟩, some ⟨9, some "Ann"⟩, ⟨42, none, false⟩⟩,
        Value.pyNone, "Ann"⟩ : ParseOutputs).chat_id =
       dictGet [("chat_id", Value.int 5),
         ("update", Value.upd ⟨none, ⟨7⟩, some ⟨9, some "Ann"⟩, ⟨42, none, false⟩⟩)]
         "chat_id" ∧
     (⟨Value.int 5, Value.pyNone, Value.pyNone,
        Value.upd ⟨none, ⟨7⟩, some ⟨9, some "Ann"⟩, ⟨42, none, false⟩⟩,
        Value.pyNone, "Ann"⟩ : ParseOutputs).user_id =
       dictGet [("chat_id", Value.int 5),
         ("update", Value.upd ⟨none, ⟨7⟩, some ⟨9, some "Ann"⟩, ⟨42, none, false⟩⟩)]
         "user_id" ∧
     (⟨Value.int 5, Value.pyNone, Value.pyNone,
        Value.upd ⟨none, ⟨7⟩, some ⟨9, some "Ann"⟩, ⟨42, none, false⟩⟩,
        Value.pyNone, "Ann"⟩ : ParseOutputs).message_text =
       dictGet [("chat_id", Value.int 5),
         ("update", Value.upd ⟨none, ⟨7⟩, some ⟨9, some "Ann"⟩, ⟨42, none, false⟩⟩)]
         "message_text" ∧
     (⟨Value.int 5, Value.pyNone, Value.pyNone,
        Value.upd ⟨none, ⟨7⟩, some ⟨9, some "Ann"⟩, ⟨42, none, false⟩⟩,
        Value.pyNone, "Ann"⟩ : ParseOutputs).update_obj =
       dictGet [("chat_id", Value.int 5),
         ("update", Value.upd ⟨none, ⟨7⟩, some ⟨9, some "Ann"⟩, ⟨42, none, false⟩⟩)]
         "update" ∧
     (⟨Value.int 5, Value.pyNone, Value.pyNone,
        Value.upd ⟨none, ⟨7⟩, some ⟨9, some "Ann"⟩, ⟨42, none, false⟩⟩,
        Value.pyNone, "Ann"⟩ : ParseOutputs).command_name =
       dictGet [("chat_id", Value.int 5),
         ("update", Value.upd ⟨none, ⟨7⟩, some ⟨9, some "Ann"⟩, ⟨42, none, false⟩⟩)]
         "command_name") ∧
    (⟨Value.int 5, Value.pyNone, Value.pyNone,
       Value.upd ⟨none, ⟨7⟩, some ⟨9, some "Ann"⟩, ⟨42, none, false⟩⟩,
       Value.pyNone, "Ann"⟩ : ParseOutputs).first_name = "Ann" :=
  ⟨C9_parse_total.1 (some [("chat_id", Value.int 5),
     ("update", Value.upd ⟨none, ⟨7⟩, some ⟨9, some "Ann"⟩, ⟨42, none, false⟩⟩)])
     (by decide),
   C9_parse_total.2.2.1 [("chat_id", Value.int 5),
     ("update", Value.upd ⟨none, ⟨7⟩, some ⟨9, some "Ann"⟩, ⟨42, none, false⟩⟩)]
     ⟨Value.int 5, Value.pyNone, Value.pyNone,
       Value.upd ⟨none, ⟨7⟩, some ⟨9, some "Ann"⟩, ⟨42, none, false⟩⟩,
       Value.pyNone, "Ann"⟩ rfl,
   C9_parse_total.2.2.2.2.1 [("chat_id", Value.int 5),
     ("update", Value.upd ⟨none, ⟨7⟩, some ⟨9, some "Ann"⟩, ⟨42, none, false⟩⟩)]
     ⟨none, ⟨7⟩, some ⟨9, some "Ann"⟩, ⟨42, none, false⟩⟩ ⟨9, some "Ann"⟩ "Ann"
     ⟨Value.int 5, Value.pyNone, Value.pyNone,
       Value.upd ⟨none, ⟨7⟩, some ⟨9, some "Ann"⟩, ⟨42, none, false⟩⟩,
       Value.pyNone, "Ann"⟩ rfl rfl rfl rfl (by decide)⟩
